import Mathlib

/-!
Verification of the TrainerAI AI-workout generation pipeline.

Shallow embedding of:
  * `backend/app/schemas/ai_workout.py` — `_extract_first_int`, `SetPrescription`
    (`normalize_set` before-validator and `validate_reps_or_seconds` after-validator),
    `BlockExercise`, `WorkoutBlock`, `AIWorkoutPlan`;
  * `backend/app/core/ai_client.py` — `generate_workout_plan` (code-fence stripping,
    JSON parsing, error mapping);
  * `backend/app/api/v1/workouts.py` — the catalog formatting lines of
    `generate_workout` and its error-to-HTTP-status mapping.

Modelling conventions:
  * Python `None` / JSON `null` / a missing key are all `Raw.none` (resp. `Option.none`
    for fields read with a fixed expected type), since the code treats them alike
    (`dict.get` returns `None` for a missing key).
  * Python strings are `String`; `str.strip` is `pyStrip`, `str.lower` is
    `pyLower` (hand-rolled so that proofs reduce; ASCII-faithful, and the
    inputs of interest are ASCII).
  * Python ints are unbounded, as are `Int`/`Nat`.  A raw bool under
    `reps`/`seconds` passes through `_extract_first_int` unchanged (`bool` is
    an `int` instance) and is then rejected by pydantic v2 field validation
    of the `Optional[int]` fields, modelled by `PyInt` and `fieldOptInt`.
  * `re.search("(\\d+)", s)` is `firstDigitRun`: the first maximal run of decimal
    digits in `s` (ASCII digits; the claims concern decimal digits only).
-/

/-- A raw JSON-ish value as seen by the pydantic `mode="before"` validator:
the result of `json.loads` can put `None`, `bool`, `int`, `float`, `str`,
or a container under any key.  Containers are collapsed to `other` since
`_extract_first_int` returns `None` on them and no other code path reads them. -/
inductive Raw where
  | none
  | bool (b : Bool)
  | int (n : Int)
  | float (q : Rat)
  | str (s : String)
  | other
deriving DecidableEq

/-- Python `str.lower()` (ASCII; the relevant inputs are ASCII). -/
def pyLower (s : String) : String := ⟨s.data.map Char.toLower⟩

/-- Python whitespace for `str.strip()`. -/
def isSpaceChar (c : Char) : Bool :=
  c == ' ' || c == '\t' || c == '\n' || c == '\r' || c == '\x0b' || c == '\x0c'

/-- Python `str.strip()`. -/
def pyStrip (s : String) : String :=
  ⟨((s.data.dropWhile isSpaceChar).reverse.dropWhile isSpaceChar).reverse⟩

/-- ASCII decimal digit (what `\d` matches on the inputs of interest). -/
def isDigitChar (c : Char) : Bool := 48 ≤ c.toNat && c.toNat ≤ 57

/-- Python `int(x)` on a float truncates toward zero. -/
def truncTowardZero (q : Rat) : Int :=
  if 0 ≤ q then q.floor else q.ceil

/-- The first maximal run of decimal digits in a character list
(`re.search("(\\d+)", s)`). -/
def firstDigitRun : List Char → Option (List Char)
  | [] => Option.none
  | c :: cs =>
    if isDigitChar c then some (c :: cs.takeWhile isDigitChar)
    else firstDigitRun cs

/-- Value of a digit run (`int(m.group(1))`). -/
def digitsVal (ds : List Char) : Nat :=
  ds.foldl (fun acc c => 10 * acc + (c.toNat - Char.toNat '0')) 0

/-- What `_extract_first_int` actually returns (its annotation says
`Optional[int]`): the `isinstance(value, int)` branch returns the value
*unchanged*, and Python `bool` is an `int` instance, so a raw `True`/`False`
leaks through as the bool itself; every other successful branch produces a
real int.  Pydantic later rejects the leaked bool for an `Optional[int]`
field (v2 disallows bool-for-int coercion). -/
inductive PyInt where
  | int (n : Int)
  | bool (b : Bool)
deriving DecidableEq

/-- `_extract_first_int` from `ai_workout.py`: best-effort extraction of an
integer from a messy LLM output value.  A bool input is returned unchanged
(`isinstance(True, int)` holds), not coerced to 1/0. -/
def extract_first_int : Raw → Option PyInt
  | Raw.none => Option.none
  | Raw.bool b => some (PyInt.bool b)
  | Raw.int n => some (PyInt.int n)
  | Raw.float q => some (PyInt.int (truncTowardZero q))
  | Raw.str s =>
    (firstDigitRun (pyLower (pyStrip s)).data).map
      (fun ds => PyInt.int (digitsVal ds))
  | Raw.other => Option.none

/-- `pat in s` for Python strings: `pat` occurs as a contiguous substring. -/
def beginsWith : List Char → List Char → Bool
  | [], _ => true
  | _ :: _, [] => false
  | p :: ps, c :: cs => p == c && beginsWith ps cs

/-- Substring occurrence on character lists. -/
def occursIn (pat : List Char) : List Char → Bool
  | [] => beginsWith pat []
  | c :: cs => beginsWith pat (c :: cs) || occursIn pat cs

/-- Python `pat in s` (substring containment). -/
def pyIn (pat s : String) : Bool := occursIn pat.data s.data

/-- Python `(x or "")` for an optional string (`None` and `""` both give `""`). -/
def strOrEmpty : Option String → String
  | Option.none => ""
  | some s => s

/-- The raw dict fed to `SetPrescription.model_validate`.  `reps` and `seconds`
keep the full raw-value type because `_extract_first_int` inspects them;
`weight`, `notes`, `reps_text` are modelled at their pydantic field types
(`Option.none` = absent/null; a raw value of the wrong type for those fields
fails pydantic field validation and is outside every claim). -/
structure RawSet where
  reps : Raw := Raw.none
  seconds : Raw := Raw.none
  weight : Option Int := Option.none
  notes : Option String := Option.none
  reps_text : Option String := Option.none
deriving DecidableEq

/-- The validated `SetPrescription` model. -/
structure SetPrescription where
  reps : Option Int
  seconds : Option Int
  weight : Option Int
  notes : Option String
  reps_text : Option String
deriving DecidableEq

/-- The dict as it leaves `normalize_set`: `reps`/`seconds` now hold what the
before-validator computed (`None`, an int, or a leaked bool); the other keys
are unchanged.  Pydantic field validation runs on this next. -/
structure NormSet where
  reps : Option PyInt
  seconds : Option PyInt
  weight : Option Int
  notes : Option String
  reps_text : Option String
deriving DecidableEq

/-- Heuristic keyword list from `normalize_set` indicating a textual prescription. -/
def keywords : List String :=
  ["amrap", "to failure", "failure", "as many", "until", "max"]

/-- The trailing fallback branch of `normalize_set`: when reps and seconds are
still absent and the original `reps` value was not a non-blank string, the code
uses the notes text as fallback if it contains a prescription keyword (or an
integer was inferred, impossible in this branch). -/
def notesFallback (notes : String) (inferred : Option Int)
    (old : Option String) : Option String :=
  let notes_l := pyLower notes
  if keywords.any (fun k => pyIn k notes_l) || inferred.isSome then
    (if pyStrip notes ≠ "" then some (pyStrip notes) else Option.none)
  else old

/-- `SetPrescription.normalize_set` (the `mode="before"` model validator). -/
def normalize_set (d : RawSet) : NormSet :=
  let reps_val := extract_first_int d.reps
  let seconds_val := extract_first_int d.seconds
  if reps_val.isNone && seconds_val.isNone then
    let notes := strOrEmpty d.notes
    let inferred := extract_first_int (Raw.str notes)
    match inferred with
    | some k =>
      let notes_l := pyLower notes
      if pyIn "sec" notes_l || pyIn "second" notes_l then
        { reps := Option.none, seconds := some k, weight := d.weight,
          notes := d.notes, reps_text := d.reps_text }
      else
        { reps := some k, seconds := Option.none, weight := d.weight,
          notes := d.notes, reps_text := d.reps_text }
    | Option.none =>
      let rt :=
        match d.reps with
        | Raw.str s =>
          if pyStrip s ≠ "" then some (pyStrip s)
          else notesFallback notes Option.none d.reps_text
        | _ => notesFallback notes Option.none d.reps_text
      { reps := Option.none, seconds := Option.none, weight := d.weight,
        notes := d.notes, reps_text := rt }
  else
    { reps := reps_val, seconds := seconds_val, weight := d.weight,
      notes := d.notes, reps_text := d.reps_text }

/-- Python truthiness of an optional string (`not self.reps_text`):
`None` and `""` are falsy. -/
def truthyStr : Option String → Bool
  | Option.none => false
  | some s => s ≠ ""

/-- `SetPrescription.validate_reps_or_seconds` (the `mode="after"` validator):
rejects a set with no numeric reps/seconds and no truthy textual prescription. -/
def validate_reps_or_seconds (p : SetPrescription) : Option SetPrescription :=
  if p.reps.isNone && p.seconds.isNone && !(truthyStr p.reps_text) then Option.none
  else some p

/-- Pydantic v2 validation of the `Optional[int]` value the before-validator
left in `reps`/`seconds`: `None` and ints pass, a leaked bool is rejected
(v2 does not coerce bool to int). -/
def fieldOptInt : Option PyInt → Option (Option Int)
  | Option.none => some Option.none
  | some (PyInt.int n) => some (some n)
  | some (PyInt.bool _) => Option.none

/-- Full validation of one raw set: normalization, pydantic field validation
of the normalized `reps`/`seconds`, then the after-validator invariant check.
`Option.none` models the pydantic `ValidationError`. -/
def validateSet (d : RawSet) : Option SetPrescription :=
  match fieldOptInt (normalize_set d).reps with
  | Option.none => Option.none
  | some r =>
    match fieldOptInt (normalize_set d).seconds with
    | Option.none => Option.none
    | some sv =>
      validate_reps_or_seconds
        { reps := r, seconds := sv, weight := (normalize_set d).weight,
          notes := (normalize_set d).notes,
          reps_text := (normalize_set d).reps_text }

example : validateSet { reps := Raw.str "12 reps" } =
    some ⟨some 12, Option.none, Option.none, Option.none, Option.none⟩ := by decide

example : validateSet { notes := some "hold for 45 seconds" } =
    some ⟨Option.none, some 45, Option.none, some "hold for 45 seconds", Option.none⟩ := by
  decide

example : validateSet { reps := Raw.str "AMRAP" } =
    some ⟨Option.none, Option.none, Option.none, Option.none, some "AMRAP"⟩ := by decide

example : validateSet {} = Option.none := by decide

example : validateSet { reps := Raw.int 0, seconds := Raw.bool true } =
    Option.none := by decide

example : validateSet { reps := Raw.bool true } = Option.none := by decide

/-- `SubsetType = Literal["upper","lower","core","full_body","conditioning"]`. -/
inductive SubsetType where
  | upper | lower | core | full_body | conditioning
deriving DecidableEq

/-- `BlockType = Literal["straight","superset","circuit"]`. -/
inductive BlockType where
  | straight | superset | circuit
deriving DecidableEq

/-- Pydantic `Literal` check for `SubsetType` (accepts exactly the listed strings). -/
def SubsetType.ofString : String → Option SubsetType
  | "upper" => some .upper
  | "lower" => some .lower
  | "core" => some .core
  | "full_body" => some .full_body
  | "conditioning" => some .conditioning
  | _ => Option.none

/-- JSON rendering of a `SubsetType`. -/
def SubsetType.toStr : SubsetType → String
  | .upper => "upper"
  | .lower => "lower"
  | .core => "core"
  | .full_body => "full_body"
  | .conditioning => "conditioning"

/-- Pydantic `Literal` check for `BlockType`. -/
def BlockType.ofString : String → Option BlockType
  | "straight" => some .straight
  | "superset" => some .superset
  | "circuit" => some .circuit
  | _ => Option.none

/-- JSON rendering of a `BlockType`. -/
def BlockType.toStr : BlockType → String
  | .straight => "straight"
  | .superset => "superset"
  | .circuit => "circuit"

/-- Raw JSON for a `BlockExercise`.  `Option.none` on a required field models a
missing/null/ill-typed value, which pydantic rejects. -/
structure RawBlockExercise where
  exercise_id : Option String := Option.none
  sets : Option (List RawSet) := Option.none
deriving DecidableEq

/-- Raw JSON for a `WorkoutBlock`. -/
structure RawBlock where
  block_type : Option String := Option.none
  rest_seconds : Option Int := Option.none
  exercises : Option (List RawBlockExercise) := Option.none
deriving DecidableEq

/-- Raw JSON for an `AIWorkoutPlan`. -/
structure RawPlan where
  name : Option String := Option.none
  focus_subsets : Option (List String) := Option.none
  muscles_targeted : Option (List String) := Option.none
  blocks : Option (List RawBlock) := Option.none
deriving DecidableEq

/-- Validated `BlockExercise`. -/
structure BlockExercise where
  exercise_id : String
  sets : List SetPrescription
deriving DecidableEq

/-- Validated `WorkoutBlock`. -/
structure WorkoutBlock where
  block_type : BlockType
  rest_seconds : Int
  exercises : List BlockExercise
deriving DecidableEq

/-- Validated `AIWorkoutPlan`. -/
structure AIWorkoutPlan where
  name : String
  focus_subsets : List SubsetType
  muscles_targeted : List String
  blocks : List WorkoutBlock
deriving DecidableEq

/-- Validate every element of a list, failing if any element fails
(the all-or-nothing semantics of a pydantic list field). -/
def mapOpt {α β : Type} (f : α → Option β) : List α → Option (List β)
  | [] => some []
  | a :: t =>
    match f a with
    | Option.none => Option.none
    | some b => (mapOpt f t).map (fun l => b :: l)

/-- `BlockExercise.model_validate`: each set is normalized and checked; any
failing set fails the whole exercise (pydantic collects the error and the
surrounding `model_validate` call raises). -/
def validateBlockExercise (r : RawBlockExercise) : Option BlockExercise := do
  let eid ← r.exercise_id
  let rsets ← r.sets
  let sets ← mapOpt validateSet rsets
  pure { exercise_id := eid, sets := sets }

/-- `WorkoutBlock.model_validate`. -/
def validateBlock (r : RawBlock) : Option WorkoutBlock := do
  let bts ← r.block_type
  let bt ← BlockType.ofString bts
  let rs ← r.rest_seconds
  let rexs ← r.exercises
  let exs ← mapOpt validateBlockExercise rexs
  pure { block_type := bt, rest_seconds := rs, exercises := exs }

/-- `AIWorkoutPlan.model_validate`: the Plan Validator.  `Option.none` models a
pydantic `ValidationError`; any invalid set anywhere fails the whole plan,
no partial plan is produced. -/
def validatePlan (r : RawPlan) : Option AIWorkoutPlan := do
  let name ← r.name
  let fss ← r.focus_subsets
  let fs ← mapOpt SubsetType.ofString fss
  let ms ← r.muscles_targeted
  let rblocks ← r.blocks
  let blocks ← mapOpt validateBlock rblocks
  pure { name := name, focus_subsets := fs, muscles_targeted := ms, blocks := blocks }

/-- JSON serialization of an optional int field (`model_dump`): `None → null`. -/
def optIntToRaw : Option Int → Raw
  | Option.none => Raw.none
  | some n => Raw.int n

/-- `model_dump` of a validated set back to a raw JSON dict. -/
def serializeSet (p : SetPrescription) : RawSet :=
  { reps := optIntToRaw p.reps, seconds := optIntToRaw p.seconds,
    weight := p.weight, notes := p.notes, reps_text := p.reps_text }

/-- `model_dump` of a validated block exercise. -/
def serializeBlockExercise (b : BlockExercise) : RawBlockExercise :=
  { exercise_id := some b.exercise_id, sets := some (b.sets.map serializeSet) }

/-- `model_dump` of a validated block. -/
def serializeBlock (b : WorkoutBlock) : RawBlock :=
  { block_type := some b.block_type.toStr, rest_seconds := some b.rest_seconds,
    exercises := some (b.exercises.map serializeBlockExercise) }

/-- `model_dump` of a validated plan: the JSON the API echoes back to the caller. -/
def serializePlan (p : AIWorkoutPlan) : RawPlan :=
  { name := some p.name,
    focus_subsets := some (p.focus_subsets.map SubsetType.toStr),
    muscles_targeted := some p.muscles_targeted,
    blocks := some (p.blocks.map serializeBlock) }

/-- A parsed JSON value (the result of `json.loads`).  Numbers with a fraction
or exponent part become `jfloat` carrying their lexeme; their numeric value is
never inspected by any claim (the schema fields of interest are ints/strings). -/
inductive JVal where
  | jnull
  | jbool (b : Bool)
  | jnum (n : Int)
  | jfloat (lexeme : String)
  | jstr (s : String)
  | jarr (xs : List JVal)
  | jobj (kvs : List (String × JVal))

/-- JSON whitespace skipped by the Python decoder (`[ \t\n\r]*`). -/
def skipWsJ : List Char → List Char :=
  List.dropWhile (fun c => c == ' ' || c == '\t' || c == '\n' || c == '\r')

/-- Hex digit value for `\uXXXX` escapes. -/
def hexVal (c : Char) : Option Nat :=
  if 48 ≤ c.toNat ∧ c.toNat ≤ 57 then some (c.toNat - 48)
  else if 97 ≤ c.toNat ∧ c.toNat ≤ 102 then some (c.toNat - 87)
  else if 65 ≤ c.toNat ∧ c.toNat ≤ 70 then some (c.toNat - 55)
  else Option.none

/-- JSON string body parser (after the opening quote), with fuel so that the
kernel can evaluate it.  Returns the decoded characters and the rest. -/
def parseJStrAux : Nat → List Char → Except String (List Char × List Char)
  | 0, _ => Except.error "Unterminated string"
  | _ + 1, [] => Except.error "Unterminated string"
  | fuel + 1, c :: cs =>
    if c == '"' then Except.ok ([], cs)
    else if c == '\\' then
      match cs with
      | [] => Except.error "Unterminated string"
      | e :: cs2 =>
        let esc : Option (Char × List Char) :=
          if e == '"' then some ('"', cs2)
          else if e == '\\' then some ('\\', cs2)
          else if e == '/' then some ('/', cs2)
          else if e == 'b' then some ('\x08', cs2)
          else if e == 'f' then some ('\x0c', cs2)
          else if e == 'n' then some ('\n', cs2)
          else if e == 'r' then some ('\r', cs2)
          else if e == 't' then some ('\t', cs2)
          else if e == 'u' then
            match cs2 with
            | h1 :: h2 :: h3 :: h4 :: cs3 =>
              match hexVal h1, hexVal h2, hexVal h3, hexVal h4 with
              | some a, some b, some x, some d =>
                some (Char.ofNat (((a * 16 + b) * 16 + x) * 16 + d), cs3)
              | _, _, _, _ => Option.none
            | _ => Option.none
          else Option.none
        match esc with
        | some (ch, rest) =>
          (parseJStrAux fuel rest).map (fun p => (ch :: p.1, p.2))
        | Option.none => Except.error "Invalid escape"
    else if c.toNat < 32 then Except.error "Invalid control character"
    else (parseJStrAux fuel cs).map (fun p => (c :: p.1, p.2))

/-- JSON number parser, following the Python decoder regex
`(-?(?:0|[1-9]\d*))(\.\d+)?([eE][-+]?\d+)?`: the fraction/exponent parts are
only consumed when complete; a number with either part parses as `jfloat`. -/
def parseJNum (cs : List Char) : Except String (JVal × List Char) :=
  let (neg, cs1) : Bool × List Char :=
    match cs with
    | '-' :: rest => (true, rest)
    | _ => (false, cs)
  match cs1 with
  | [] => Except.error "Expecting value"
  | c :: rest =>
    if !(isDigitChar c) then Except.error "Expecting value"
    else
      let (intDs, rest1) : List Char × List Char :=
        if c == '0' then ([c], rest)
        else (c :: rest.takeWhile isDigitChar, rest.dropWhile isDigitChar)
      let (fracDs, rest2) : Option (List Char) × List Char :=
        match rest1 with
        | '.' :: r =>
          let ds := r.takeWhile isDigitChar
          if ds = [] then (Option.none, rest1)
          else (some ds, r.dropWhile isDigitChar)
        | _ => (Option.none, rest1)
      let (expDs, rest3) : Option (List Char) × List Char :=
        match rest2 with
        | e :: r =>
          if e == 'e' || e == 'E' then
            let (sgn, r1) : List Char × List Char :=
              match r with
              | s :: r2 => if s == '+' || s == '-' then ([s], r2) else ([], r)
              | [] => ([], r)
            let ds := r1.takeWhile isDigitChar
            if ds = [] then (Option.none, rest2)
            else (some (e :: (sgn ++ ds)), r1.dropWhile isDigitChar)
          else (Option.none, rest2)
        | [] => (Option.none, rest2)
      match fracDs, expDs with
      | Option.none, Option.none =>
        let v : Int := digitsVal intDs
        Except.ok (JVal.jnum (if neg then -v else v), rest1)
      | _, _ =>
        let lex : List Char :=
          (if neg then ['-'] else []) ++ intDs ++
            (match fracDs with
             | some ds => '.' :: ds
             | Option.none => []) ++
            (match expDs with
             | some ds => ds
             | Option.none => [])
        Except.ok (JVal.jfloat ⟨lex⟩, rest3)

mutual

/-- JSON value parser (`json.decoder`), with fuel so the kernel can evaluate it.
Error messages follow the Python decoder, with positions elided. -/
def parseJVal : Nat → List Char → Except String (JVal × List Char)
  | 0, _ => Except.error "Expecting value"
  | fuel + 1, cs =>
    match cs with
    | [] => Except.error "Expecting value"
    | c :: rest =>
      if c == '{' then
        match skipWsJ rest with
        | '}' :: r2 => Except.ok (JVal.jobj [], r2)
        | r1 => (parseJObjItems fuel r1).map (fun p => (JVal.jobj p.1, p.2))
      else if c == '[' then
        match skipWsJ rest with
        | ']' :: r2 => Except.ok (JVal.jarr [], r2)
        | r1 => (parseJArrItems fuel r1).map (fun p => (JVal.jarr p.1, p.2))
      else if c == '"' then
        (parseJStrAux (rest.length + 1) rest).map (fun p => (JVal.jstr ⟨p.1⟩, p.2))
      else if beginsWith "true".data cs then Except.ok (JVal.jbool true, cs.drop 4)
      else if beginsWith "false".data cs then Except.ok (JVal.jbool false, cs.drop 5)
      else if beginsWith "null".data cs then Except.ok (JVal.jnull, cs.drop 4)
      else if c == '-' || isDigitChar c then parseJNum cs
      else Except.error "Expecting value"

/-- Members of a JSON object, positioned where a key string must start. -/
def parseJObjItems : Nat → List Char → Except String (List (String × JVal) × List Char)
  | 0, _ => Except.error "Expecting property name enclosed in double quotes"
  | fuel + 1, cs =>
    match cs with
    | '"' :: rest =>
      match parseJStrAux (rest.length + 1) rest with
      | Except.error e => Except.error e
      | Except.ok (key, r1) =>
        match skipWsJ r1 with
        | ':' :: r2 =>
          match parseJVal fuel (skipWsJ r2) with
          | Except.error e => Except.error e
          | Except.ok (v, r3) =>
            match skipWsJ r3 with
            | ',' :: r4 =>
              match parseJObjItems fuel (skipWsJ r4) with
              | Except.ok (kvs, r5) => Except.ok (((⟨key⟩ : String), v) :: kvs, r5)
              | Except.error e => Except.error e
            | '}' :: r4 => Except.ok ([((⟨key⟩ : String), v)], r4)
            | _ => Except.error "Expecting comma delimiter"
        | _ => Except.error "Expecting colon delimiter"
    | _ => Except.error "Expecting property name enclosed in double quotes"
termination_by structural fuel _ => fuel

/-- Elements of a JSON array, positioned where a value must start. -/
def parseJArrItems : Nat → List Char → Except String (List JVal × List Char)
  | 0, _ => Except.error "Expecting value"
  | fuel + 1, cs =>
    match parseJVal fuel cs with
    | Except.error e => Except.error e
    | Except.ok (v, r1) =>
      match skipWsJ r1 with
      | ',' :: r2 =>
        match parseJArrItems fuel (skipWsJ r2) with
        | Except.ok (vs, r3) => Except.ok (v :: vs, r3)
        | Except.error e => Except.error e
      | ']' :: r2 => Except.ok ([v], r2)
      | _ => Except.error "Expecting comma delimiter"
termination_by structural fuel _ => fuel

end

/-- `json.loads`: skip leading whitespace, parse one value, require only
whitespace after it (`"Extra data"` otherwise).  The fuel `2*length+2` is
sufficient: along any chain of recursive calls, every two fuel decrements
consume at least one input character. -/
def jsonLoads (s : String) : Except String JVal :=
  let cs := skipWsJ s.data
  match parseJVal (2 * cs.length + 2) cs with
  | Except.error e => Except.error e
  | Except.ok (v, rest) =>
    if skipWsJ rest = [] then Except.ok v else Except.error "Extra data"

example : jsonLoads "\x7b\"a\":1\x7d" = Except.ok (JVal.jobj [("a", JVal.jnum 1)]) := rfl
example : jsonLoads "" = Except.error "Expecting value" := rfl
example : jsonLoads "not json" = Except.error "Expecting value" := rfl
example : jsonLoads " [1, 2, \x7b\"b\": null\x7d] " =
    Except.ok (JVal.jarr [JVal.jnum 1, JVal.jnum 2, JVal.jobj [("b", JVal.jnull)]]) := rfl
example : jsonLoads "12.5e2" = Except.ok (JVal.jfloat "12.5e2") := rfl
example : jsonLoads "\x7b\"a\":1\x7d x" = Except.error "Extra data" := rfl
example : jsonLoads "-07" = Except.error "Extra data" := rfl
example : jsonLoads "\"h\\u0041i\"" = Except.ok (JVal.jstr "hAi") := rfl

/-- Python `s.startswith(pat)`. -/
def pyStartsWith (s pat : String) : Bool := beginsWith pat.data s.data

/-- Python `s.endswith(pat)`. -/
def pyEndsWith (s pat : String) : Bool := beginsWith pat.data.reverse s.data.reverse

/-- Python `s[n:]` (drop the first `n` characters). -/
def pyDrop (s : String) (n : Nat) : String := ⟨s.data.drop n⟩

/-- Python `s[:-n]` for `n ≤ len(s)` (drop the last `n` characters). -/
def pyDropRight (s : String) (n : Nat) : String := ⟨s.data.take (s.data.length - n)⟩

/-- Python `len(s)`. -/
def pyLen (s : String) : Nat := s.data.length

/-- Python `s[:500]`. -/
def pyTake (s : String) (n : Nat) : String := ⟨s.data.take n⟩

/-- The fence-stripping step of `generate_workout_plan`: remove a leading
` ```json ` or ` ``` `, then a trailing ` ``` `, then strip whitespace. -/
def strip_code_fences (raw : String) : String :=
  let r1 :=
    if pyStartsWith raw "```json" then pyDrop raw 7
    else if pyStartsWith raw "```" then pyDrop raw 3
    else raw
  let r2 := if pyEndsWith r1 "```" then pyDropRight r1 3 else r1
  pyStrip r2

/-- The snippet included in the parse-error message:
`raw_text[:500] if len(raw_text) > 500 else raw_text`. -/
def snippetOf (raw : String) : String :=
  if 500 < pyLen raw then pyTake raw 500 else raw

/-- Outcome of the external Gemini call, the untyped boundary of the client:
  * `missingKey m` — `genai.configure` raised `ValueError` for a missing
    `GEMINI_API_KEY` (per the docstring of `generate_workout_plan`), message `m`;
  * `callRaises` — `get_gemini_model`/`generate_content` raised any other
    exception (network failure, timeout, API error);
  * `returns t` — the call returned with `result.text = t` (`None` or a string). -/
inductive GeminiOutcome where
  | missingKey (msg : String)
  | callRaises
  | returns (text : Option String)

/-- The Python exception leaving `generate_workout_plan`, by class and message. -/
inductive PyError where
  | valueError (msg : String)
  | runtimeError (msg : String)
deriving DecidableEq

/-- The Python exception class of a `PyError`. -/
def pyErrClass : PyError → String
  | .valueError _ => "ValueError"
  | .runtimeError _ => "RuntimeError"

/-- `generate_workout_plan` from `ai_client.py`:
  * a `ValueError` from `genai` (missing key) is re-raised as-is;
  * any other exception from the call becomes `RuntimeError("Unexpected Gemini error")`;
  * a returned text (`result.text or ""`) is fence-stripped and JSON-parsed;
    a `JSONDecodeError` becomes
    `RuntimeError(f"Invalid JSON from Gemini: {e}: {snippet}")`. -/
def generate_workout_plan : GeminiOutcome → Except PyError JVal
  | .missingKey m => Except.error (PyError.valueError m)
  | .callRaises => Except.error (PyError.runtimeError "Unexpected Gemini error")
  | .returns t =>
    let raw := strip_code_fences (strOrEmpty t)
    match jsonLoads raw with
    | Except.ok v => Except.ok v
    | Except.error e =>
      Except.error (PyError.runtimeError
        ("Invalid JSON from Gemini: " ++ e ++ ": " ++ snippetOf raw))

/-- The exception class of a failed client call (`Option.none` on success). -/
def errClassOf : Except PyError JVal → Option String
  | Except.error e => some (pyErrClass e)
  | Except.ok _ => Option.none

/-- Whether an `Except` is a success. -/
def exOk {ε α : Type} : Except ε α → Bool
  | Except.ok _ => true
  | Except.error _ => false

/-- Last-wins key lookup in a JSON object (Python dicts keep the last duplicate). -/
def jLookup (kvs : List (String × JVal)) (k : String) : Option JVal :=
  kvs.foldl (fun acc p => if p.1 == k then some p.2 else acc) Option.none

/-- A raw JSON value placed under `reps`/`seconds` of a set.  A float with
fraction/exponent is collapsed to `Raw.other`; no claim exercises float fields. -/
def jvalToRawVal : Option JVal → Raw
  | Option.none => Raw.none
  | some JVal.jnull => Raw.none
  | some (JVal.jbool b) => Raw.bool b
  | some (JVal.jnum n) => Raw.int n
  | some (JVal.jfloat _) => Raw.other
  | some (JVal.jstr s) => Raw.str s
  | some (JVal.jarr _) => Raw.other
  | some (JVal.jobj _) => Raw.other

/-- Pydantic read of an `Optional[str]` field (`Option.none` inner = absent/null;
outer `Option.none` = type error). -/
def jvalToOptStr : Option JVal → Option (Option String)
  | Option.none => some Option.none
  | some JVal.jnull => some Option.none
  | some (JVal.jstr s) => some (some s)
  | _ => Option.none

/-- Pydantic read of an `Optional[int]` field.  Lax-mode coercions from digit
strings or integral floats are not modelled (no claim exercises them). -/
def jvalToOptInt : Option JVal → Option (Option Int)
  | Option.none => some Option.none
  | some JVal.jnull => some Option.none
  | some (JVal.jnum n) => some (some n)
  | _ => Option.none

/-- Read a parsed JSON value as the raw dict for one set.  A non-object or an
ill-typed `weight`/`notes`/`reps_text` field fails pydantic validation. -/
def jvalToRawSet (v : JVal) : Option RawSet :=
  match v with
  | JVal.jobj kvs => do
    let w ← jvalToOptInt (jLookup kvs "weight")
    let n ← jvalToOptStr (jLookup kvs "notes")
    let rt ← jvalToOptStr (jLookup kvs "reps_text")
    pure { reps := jvalToRawVal (jLookup kvs "reps"),
           seconds := jvalToRawVal (jLookup kvs "seconds"),
           weight := w, notes := n, reps_text := rt }
  | _ => Option.none

/-- Read a parsed JSON value as a raw block exercise. -/
def jvalToRawBlockExercise (v : JVal) : Option RawBlockExercise :=
  match v with
  | JVal.jobj kvs =>
    some { exercise_id :=
             (match jLookup kvs "exercise_id" with
              | some (JVal.jstr s) => some s
              | _ => Option.none),
           sets :=
             (match jLookup kvs "sets" with
              | some (JVal.jarr xs) => mapOpt jvalToRawSet xs
              | _ => Option.none) }
  | _ => Option.none

/-- Read a parsed JSON value as a raw workout block. -/
def jvalToRawBlock (v : JVal) : Option RawBlock :=
  match v with
  | JVal.jobj kvs =>
    some { block_type :=
             (match jLookup kvs "block_type" with
              | some (JVal.jstr s) => some s
              | _ => Option.none),
           rest_seconds :=
             (match jLookup kvs "rest_seconds" with
              | some (JVal.jnum n) => some n
              | _ => Option.none),
           exercises :=
             (match jLookup kvs "exercises" with
              | some (JVal.jarr xs) => mapOpt jvalToRawBlockExercise xs
              | _ => Option.none) }
  | _ => Option.none

/-- Read the parsed JSON returned by the client as the raw dict fed to
`AIWorkoutPlan.model_validate`. -/
def jvalToRawPlan (v : JVal) : RawPlan :=
  match v with
  | JVal.jobj kvs =>
    { name :=
        (match jLookup kvs "name" with
         | some (JVal.jstr s) => some s
         | _ => Option.none),
      focus_subsets :=
        (match jLookup kvs "focus_subsets" with
         | some (JVal.jarr xs) =>
           mapOpt (fun x =>
             match x with
             | JVal.jstr s => some s
             | _ => Option.none) xs
         | _ => Option.none),
      muscles_targeted :=
        (match jLookup kvs "muscles_targeted" with
         | some (JVal.jarr xs) =>
           mapOpt (fun x =>
             match x with
             | JVal.jstr s => some s
             | _ => Option.none) xs
         | _ => Option.none),
      blocks :=
        (match jLookup kvs "blocks" with
         | some (JVal.jarr xs) => mapOpt jvalToRawBlock xs
         | _ => Option.none) }
  | _ => {}

/-- Result of the `/workouts/generate` endpoint after the prompt is built:
either the validated plan or an `HTTPException` with a status code and detail. -/
inductive EndpointResult where
  | ok (plan : AIWorkoutPlan)
  | httpError (status : Nat) (detail : String)

/-- The error-mapping tail of `generate_workout` in `workouts.py`:
`ValueError → 500`, `RuntimeError → 502`, and a pydantic validation failure of
the parsed plan → 502 with the fixed detail prefix (the pydantic message that
the code appends after the colon is not modelled). -/
def generate_workout_endpoint (o : GeminiOutcome) : EndpointResult :=
  match generate_workout_plan o with
  | Except.error (PyError.valueError m) => EndpointResult.httpError 500 m
  | Except.error (PyError.runtimeError m) => EndpointResult.httpError 502 m
  | Except.ok v =>
    match validatePlan (jvalToRawPlan v) with
    | Option.none =>
      EndpointResult.httpError 502 "Generated workout plan failed validation"
    | some p => EndpointResult.ok p

/-- One exercise record as used by the catalog-formatting part of
`generate_workout`: the columns and resolved relations that are interpolated
into the prompt line.  `primary_muscle` is the related muscle name when the
relation is present.  Values are the f-string renderings. -/
structure ExerciseRec where
  id : String
  name : String
  primary_muscle : Option String
  primary_muscle_id : String
  movement_pattern : String
  equipment : String
  tags : List String
deriving DecidableEq

/-- The fixed muscle-name → subset lookup table from `generate_workout`. -/
def muscle_name_to_subset : List (String × String) :=
  [("Shoulders", "upper"), ("Chest", "upper"), ("Tricep", "upper"),
   ("Bicep", "upper"), ("Back", "upper"), ("Quads", "lower"),
   ("Hamstring", "lower"), ("Glutes", "lower"), ("Lower Abs", "core"),
   ("Upper Abs", "core"), ("Obliques", "core")]

/-- Python `dict.get` over the table (keys are unique, first match). -/
def tableGet (t : List (String × String)) (k : String) : Option String :=
  (t.find? (fun p => p.1 == k)).map (fun p => p.2)

/-- Python `str.title()` (ASCII): uppercase an alphabetic character that
follows a non-alphabetic one, lowercase the others. -/
def pyTitleAux : Bool → List Char → List Char
  | _, [] => []
  | prevAlpha, c :: cs =>
    (if c.isAlpha then (if prevAlpha then c.toLower else c.toUpper) else c)
      :: pyTitleAux c.isAlpha cs

/-- Python `str.title()`. -/
def pyTitle (s : String) : String := ⟨pyTitleAux false s.data⟩

/-- Subset derivation from `generate_workout`:
`muscle_name_to_subset.get(name) or muscle_name_to_subset.get(name.title()) or "unknown"`,
with `"unknown"` when there is no primary muscle. -/
def deriveSubset (pm : Option String) : String :=
  match pm with
  | Option.none => "unknown"
  | some mn =>
    match tableGet muscle_name_to_subset mn with
    | some s => s
    | Option.none =>
      match tableGet muscle_name_to_subset (pyTitle mn) with
      | some s => s
      | Option.none => "unknown"

/-- The catalog line built for one exercise in `generate_workout`
(`ex_str` construction; tags appended only when non-empty). -/
def formatExerciseLine (ex : ExerciseRec) : String :=
  let base :=
    "- id: " ++ ex.id ++ ", name: " ++ ex.name ++ ", subset: "
      ++ deriveSubset ex.primary_muscle ++ ", "
      ++ "primary_muscle_id: " ++ ex.primary_muscle_id ++ ", "
      ++ "movement_pattern: " ++ ex.movement_pattern
      ++ ", equipment: " ++ ex.equipment
  if ex.tags ≠ [] then base ++ ", tags: " ++ String.intercalate ", " ex.tags
  else base

/-- The database `ORDER BY Exercise.name` on the fetched records. -/
def sortByName (exs : List ExerciseRec) : List ExerciseRec :=
  exs.mergeSort (fun a b => decide (a.name ≤ b.name))

/-- The Catalog Formatter: one text line per fetched exercise, in the
name-sorted order the query returns them. -/
def catalogLines (exs : List ExerciseRec) : List String :=
  (sortByName exs).map formatExerciseLine

lemma mapOpt_eq_none_of_mem {α β : Type} {f : α → Option β} {l : List α} {x : α}
    (hx : x ∈ l) (hfx : f x = Option.none) : mapOpt f l = Option.none := by
  induction l with
  | nil => cases hx
  | cons a t ih =>
    rcases List.mem_cons.mp hx with h | h
    · subst h
      simp [mapOpt, hfx]
    · cases hfa : f a with
      | none => simp [mapOpt, hfa]
      | some b => simp [mapOpt, hfa, ih h]

lemma mapOpt_map_eq_some {α β : Type} {f : β → Option α} {g : α → β} {l : List α}
    (h : ∀ x ∈ l, f (g x) = some x) : mapOpt f (l.map g) = some l := by
  induction l with
  | nil => simp [mapOpt]
  | cons a t ih =>
    have ha := h a (List.mem_cons_self a t)
    have ht := ih (fun x hx => h x (List.mem_cons_of_mem a hx))
    simp [mapOpt, ha, ht]

/-- **C1.** Every set accepted by the Plan Validator satisfies the invariant
(reps, seconds, or truthy fallback text present after normalization); the raw
set with `reps=None`, `seconds=None`, `notes=None` and no original string reps
is rejected; and a plan containing any rejected set fails validation as a
whole (no partial plan). -/
theorem C1_set_invariant_and_whole_plan_failure :
    (∀ (d : RawSet) (p : SetPrescription), validateSet d = some p →
      p.reps ≠ Option.none ∨ p.seconds ≠ Option.none ∨ truthyStr p.reps_text = true)
    ∧ validateSet { reps := Raw.none, seconds := Raw.none, notes := Option.none } =
        Option.none
    ∧ (∀ (rp : RawPlan) (bs : List RawBlock) (b : RawBlock)
        (exl : List RawBlockExercise) (ex : RawBlockExercise)
        (sl : List RawSet) (s : RawSet),
        rp.blocks = some bs → b ∈ bs → b.exercises = some exl → ex ∈ exl →
        ex.sets = some sl → s ∈ sl → validateSet s = Option.none →
        validatePlan rp = Option.none) := by
  refine ⟨?_, by decide, ?_⟩
  · intro d p hp
    unfold validateSet at hp
    cases hr : fieldOptInt (normalize_set d).reps with
    | none => simp [hr] at hp
    | some r =>
      cases hsv : fieldOptInt (normalize_set d).seconds with
      | none => simp [hr, hsv] at hp
      | some sv =>
        simp only [hr, hsv] at hp
        unfold validate_reps_or_seconds at hp
        split at hp
        · exact absurd hp (by simp)
        · rename_i hcond
          injection hp with hp2
          subst hp2
          by_contra hall
          push_neg at hall
          obtain ⟨h1, h2, h3⟩ := hall
          apply hcond
          simp [Option.isNone_iff_eq_none, h1, h2, h3]
          exact ⟨by simpa using h1, by simpa using h2⟩
  · intro rp bs b exl ex sl s hbs hb hexl hex hsl hs hbad
    have hbe : validateBlockExercise ex = Option.none := by
      unfold validateBlockExercise
      cases heid : ex.exercise_id with
      | none => simp [heid]
      | some eid =>
        simp [heid, hsl, mapOpt_eq_none_of_mem hs hbad]
    have hblk : validateBlock b = Option.none := by
      unfold validateBlock
      cases hbt : b.block_type with
      | none => simp [hbt]
      | some bt =>
        cases hbtv : BlockType.ofString bt with
        | none => simp [hbt, hbtv]
        | some v =>
          cases hrs : b.rest_seconds with
          | none => simp [hbt, hbtv, hrs]
          | some rs =>
            simp [hbt, hbtv, hrs, hexl, mapOpt_eq_none_of_mem hex hbe]
    unfold validatePlan
    cases hn : rp.name with
    | none => simp [hn]
    | some nm =>
      cases hfs : rp.focus_subsets with
      | none => simp [hn, hfs]
      | some fss =>
        cases hfsv : mapOpt SubsetType.ofString fss with
        | none => simp [hn, hfs, hfsv]
        | some fs =>
          cases hms : rp.muscles_targeted with
          | none => simp [hn, hfs, hfsv, hms]
          | some ms =>
            simp [hn, hfs, hfsv, hms, hbs, mapOpt_eq_none_of_mem hb hblk]

/-- **C1 witness.** The invariant theorem applied at a concrete accepted set,
and the whole-plan failure applied at a concrete one-block plan whose only set
is the all-`None` set. -/
theorem C1_witness :
    (Raw.str "12 reps" = Raw.str "12 reps" →
      (some 12 : Option Int) ≠ Option.none ∨ (Option.none : Option Int) ≠ Option.none ∨
        truthyStr Option.none = true)
    ∧ validatePlan
        { name := some "w", focus_subsets := some ["upper"],
          muscles_targeted := some [],
          blocks := some [{ block_type := some "straight", rest_seconds := some 60,
                            exercises := some [{ exercise_id := some "e1",
                                                 sets := some [{ reps := Raw.none,
                                                                 seconds := Raw.none,
                                                                 notes := Option.none }] }] }] } =
        Option.none := by
  constructor
  · intro _
    have h := C1_set_invariant_and_whole_plan_failure.1
      { reps := Raw.str "12 reps" }
      { reps := some 12, seconds := Option.none, weight := Option.none,
        notes := Option.none, reps_text := Option.none }
      (by decide)
    exact h
  · exact C1_set_invariant_and_whole_plan_failure.2.2
      { name := some "w", focus_subsets := some ["upper"],
        muscles_targeted := some [],
        blocks := some [{ block_type := some "straight", rest_seconds := some 60,
                          exercises := some [{ exercise_id := some "e1",
                                               sets := some [{ reps := Raw.none,
                                                               seconds := Raw.none,
                                                               notes := Option.none }] }] }] }
      [{ block_type := some "straight", rest_seconds := some 60,
         exercises := some [{ exercise_id := some "e1",
                              sets := some [{ reps := Raw.none, seconds := Raw.none,
                                              notes := Option.none }] }] }]
      { block_type := some "straight", rest_seconds := some 60,
        exercises := some [{ exercise_id := some "e1",
                             sets := some [{ reps := Raw.none, seconds := Raw.none,
                                             notes := Option.none }] }] }
      [{ exercise_id := some "e1",
         sets := some [{ reps := Raw.none, seconds := Raw.none, notes := Option.none }] }]
      { exercise_id := some "e1",
        sets := some [{ reps := Raw.none, seconds := Raw.none, notes := Option.none }] }
      [{ reps := Raw.none, seconds := Raw.none, notes := Option.none }]
      { reps := Raw.none, seconds := Raw.none, notes := Option.none }
      rfl (by decide) rfl (by decide) rfl (by decide) (by decide)

/-- **C10.** A raw set whose `reps` is the integer 0 or a string whose first
digit run is `"0"` normalizes to `reps=0`, and the final invariant check tests
for `None`, not falsiness, so the zero prescription is accepted: the set
validates exactly when its `seconds` field itself does (in particular always
when `seconds` is absent, an int, a float, or any string — a leaked raw bool
is rejected by pydantic field validation, not by the zero reps). -/
theorem C10_zero_reps_accepted :
    ∀ (r sec : Raw) (w : Option Int) (n rt : Option String),
      (r = Raw.int 0 ∨
        ∃ s, r = Raw.str s ∧ firstDigitRun (pyLower (pyStrip s)).data = some ['0']) →
      validateSet { reps := r, seconds := sec, weight := w, notes := n, reps_text := rt } =
        (fieldOptInt (extract_first_int sec)).map
          (fun sv => { reps := some 0, seconds := sv, weight := w,
                       notes := n, reps_text := rt }) := by
  intro r sec w n rt hr
  have hex : extract_first_int r = some (PyInt.int 0) := by
    rcases hr with h | ⟨s, hs, hrun⟩
    · subst h; rfl
    · subst hs
      simp [extract_first_int, hrun]
      decide
  unfold validateSet
  cases hsec : extract_first_int sec with
  | none => simp [normalize_set, hex, hsec, fieldOptInt, validate_reps_or_seconds]
  | some v =>
    cases v with
    | int m => simp [normalize_set, hex, hsec, fieldOptInt, validate_reps_or_seconds]
    | bool b => simp [normalize_set, hex, hsec, fieldOptInt]

/-- **C10 witness.** Applied at `reps = "0 reps"` (string) with all other
fields absent. -/
theorem C10_witness :
    validateSet { reps := Raw.str "0 reps" } =
      some { reps := some 0, seconds := Option.none, weight := Option.none,
             notes := Option.none, reps_text := Option.none } := by
  have h := C10_zero_reps_accepted (Raw.str "0 reps") Raw.none Option.none
    Option.none Option.none (Or.inr ⟨"0 reps", rfl, by decide⟩)
  simpa [extract_first_int, fieldOptInt] using h

/-- **C4.** When neither `reps` nor `seconds` yields an integer and the notes
text yields one, the integer goes to `seconds` when the lowercased notes
contain `"sec"` or `"second"`, and to `reps` otherwise; in particular, absent
reps with notes `"hold for 45 seconds"` gives `seconds=45`, `reps=None`. -/
theorem C4_notes_digit_inference :
    (∀ (r sec : Raw) (w : Option Int) (t : String) (rt : Option String) (k : Int),
      extract_first_int r = Option.none →
      extract_first_int sec = Option.none →
      extract_first_int (Raw.str t) = some (PyInt.int k) →
      validateSet { reps := r, seconds := sec, weight := w, notes := some t,
                    reps_text := rt } =
        some (if pyIn "sec" (pyLower t) || pyIn "second" (pyLower t) then
                { reps := Option.none, seconds := some k, weight := w,
                  notes := some t, reps_text := rt }
              else
                { reps := some k, seconds := Option.none, weight := w,
                  notes := some t, reps_text := rt }))
    ∧ validateSet { notes := some "hold for 45 seconds" } =
        some { reps := Option.none, seconds := some 45, weight := Option.none,
               notes := some "hold for 45 seconds", reps_text := Option.none } := by
  constructor
  · intro r sec w t rt k h1 h2 h3
    unfold validateSet
    by_cases hc : (pyIn "sec" (pyLower t) || pyIn "second" (pyLower t)) = true
    · simp [normalize_set, h1, h2, strOrEmpty, h3, hc, fieldOptInt,
        validate_reps_or_seconds]
    · simp [normalize_set, h1, h2, strOrEmpty, h3, hc, fieldOptInt,
        validate_reps_or_seconds]
  · decide

/-- **C4 witness.** The inference theorem applied at reps/seconds absent and
notes `"hold for 45 seconds"`. -/
theorem C4_witness :
    validateSet { reps := Raw.none, seconds := Raw.none,
                  notes := some "hold for 45 seconds" } =
      some { reps := Option.none, seconds := some 45, weight := Option.none,
             notes := some "hold for 45 seconds", reps_text := Option.none } := by
  have h := C4_notes_digit_inference.1 Raw.none Raw.none Option.none
    "hold for 45 seconds" Option.none 45 rfl rfl (by decide)
  have hc : (pyIn "sec" (pyLower "hold for 45 seconds") ||
      pyIn "second" (pyLower "hold for 45 seconds")) = true := by decide
  rw [hc] at h
  simpa using h

/-- **C3 counterexample.** The claim says a digit-free non-empty string reps
is preserved *verbatim* as the fallback text, but the code strips surrounding
whitespace: `" AMRAP "` is stored as `"AMRAP"`. -/
theorem C3_counterexample :
    validateSet { reps := Raw.str " AMRAP " } =
      some { reps := Option.none, seconds := Option.none, weight := Option.none,
             notes := Option.none, reps_text := some "AMRAP" }
    ∧ (some "AMRAP" : Option String) ≠ some " AMRAP " := by
  exact ⟨by decide, by decide⟩

/-- **C3 (amended).** A raw set whose original `reps` is a string yielding no
integer with non-whitespace content, and whose seconds and notes yield no
integer either, normalizes to reps=None, seconds=None and the *stripped*
string as the fallback `reps_text` (verbatim exactly when the string has no
surrounding whitespace), and the set is accepted. -/
theorem C3_textual_reps_preserved_stripped :
    ∀ (s : String) (sec : Raw) (w : Option Int) (n rt : Option String),
      extract_first_int (Raw.str s) = Option.none →
      pyStrip s ≠ "" →
      extract_first_int sec = Option.none →
      extract_first_int (Raw.str (strOrEmpty n)) = Option.none →
      validateSet { reps := Raw.str s, seconds := sec, weight := w, notes := n,
                    reps_text := rt } =
        some { reps := Option.none, seconds := Option.none, weight := w,
               notes := n, reps_text := some (pyStrip s) } := by
  intro s sec w n rt h1 h2 h3 h4
  unfold validateSet
  simp only [normalize_set, h1, h3, h4, Option.isNone_none, Bool.and_self,
    if_true, if_pos h2]
  simp [fieldOptInt, validate_reps_or_seconds, truthyStr, h2]

/-- **C3 witness.** The amended theorem applied at `reps = "AMRAP"` with all
other fields absent: the stripped string is the string itself. -/
theorem C3_witness :
    validateSet { reps := Raw.str "AMRAP" } =
      some { reps := Option.none, seconds := Option.none, weight := Option.none,
             notes := Option.none, reps_text := some "AMRAP" } := by
  have h := C3_textual_reps_preserved_stripped "AMRAP" Raw.none Option.none
    Option.none Option.none (by decide) (by decide) rfl (by decide)
  simpa using h

/-- **C5 counterexample.** The claim says an upstream-call failure or empty
text yields a generation error of a kind distinct from the parse-error kind;
in the code both are `RuntimeError` (same exception class), and empty text
goes down the JSON-parse path, producing the parse-error message. -/
theorem C5_counterexample :
    errClassOf (generate_workout_plan GeminiOutcome.callRaises) =
      errClassOf (generate_workout_plan (GeminiOutcome.returns (some "not json")))
    ∧ generate_workout_plan (GeminiOutcome.returns (some "")) =
        Except.error (PyError.runtimeError "Invalid JSON from Gemini: Expecting value: ") := by
  exact ⟨rfl, rfl⟩

/-- **C5 (amended).** An upstream-call exception becomes
`RuntimeError("Unexpected Gemini error")`; empty returned text (including
`result.text = None`) is not a separate generation failure but flows into JSON
parsing and fails with the parse-error `RuntimeError`; both therefore share
the `RuntimeError` exception kind and are distinguishable only by message,
while the missing-credential `ValueError` remains a distinct kind. -/
theorem C5_generation_failures_are_runtime_errors :
    generate_workout_plan GeminiOutcome.callRaises =
      Except.error (PyError.runtimeError "Unexpected Gemini error")
    ∧ generate_workout_plan (GeminiOutcome.returns (some "")) =
        Except.error (PyError.runtimeError "Invalid JSON from Gemini: Expecting value: ")
    ∧ generate_workout_plan (GeminiOutcome.returns Option.none) =
        Except.error (PyError.runtimeError "Invalid JSON from Gemini: Expecting value: ")
    ∧ (∀ m : String, pyErrClass (PyError.runtimeError m) = "RuntimeError")
    ∧ (∀ m : String, errClassOf (generate_workout_plan (GeminiOutcome.missingKey m)) =
        some "ValueError")
    ∧ ("RuntimeError" : String) ≠ "ValueError" := by
  refine ⟨rfl, rfl, rfl, fun m => rfl, fun m => rfl, by decide⟩

/-- **C6 counterexample.** The claim says the fence marker is stripped with or
without a language tag; for a tag other than `json` the code removes only the
backticks and leaves the tag text in place, so the JSON is not recovered. -/
theorem C6_counterexample :
    strip_code_fences "```python\n\x7b\"a\":1\x7d\n```" = "python\n\x7b\"a\":1\x7d"
    ∧ exOk (generate_workout_plan
        (GeminiOutcome.returns (some "```python\n\x7b\"a\":1\x7d\n```"))) = false := by
  exact ⟨by decide, rfl⟩

/-- **C6 (amended).** Before parsing, the client strips a single leading
fence written either as ` ```json ` or as a bare ` ``` `, and a single
trailing ` ``` ` (other language tags are not removed — only their backticks);
in particular the fenced text parses to `{"a": 1}`. -/
theorem C6_json_fence_stripping :
    strip_code_fences "```json\n\x7b\"a\":1\x7d\n```" = "\x7b\"a\":1\x7d"
    ∧ generate_workout_plan (GeminiOutcome.returns (some "```json\n\x7b\"a\":1\x7d\n```")) =
        Except.ok (JVal.jobj [("a", JVal.jnum 1)])
    ∧ strip_code_fences "```\n\x7b\"a\":1\x7d\n```" = "\x7b\"a\":1\x7d"
    ∧ generate_workout_plan (GeminiOutcome.returns (some "```\n\x7b\"a\":1\x7d\n```")) =
        Except.ok (JVal.jobj [("a", JVal.jnum 1)]) := by
  exact ⟨by decide, rfl, by decide, rfl⟩

/-- **C7.** When the cleaned text is not valid JSON, the client fails with a
`RuntimeError` carrying the parser diagnostic plus the first 500 characters of
the cleaned text (a fixed cap); under 500 characters the snippet is the whole
cleaned text, as for `"not json"`. -/
theorem C7_parse_error_snippet :
    (∀ t d : String,
      jsonLoads (strip_code_fences t) = Except.error d →
      generate_workout_plan (GeminiOutcome.returns (some t)) =
        Except.error (PyError.runtimeError
          ("Invalid JSON from Gemini: " ++ d ++ ": " ++ snippetOf (strip_code_fences t))))
    ∧ (∀ s : String, pyLen s ≤ 500 → snippetOf s = s)
    ∧ generate_workout_plan (GeminiOutcome.returns (some "not json")) =
        Except.error (PyError.runtimeError "Invalid JSON from Gemini: Expecting value: not json") := by
  refine ⟨?_, ?_, rfl⟩
  · intro t d h
    unfold generate_workout_plan
    simp only [strOrEmpty, h]
  · intro s h
    unfold snippetOf
    rw [if_neg (by omega)]

/-- **C7 witness.** The theorem applied at the text `"not json"`, whose
cleaned form is 8 characters long. -/
theorem C7_witness :
    generate_workout_plan (GeminiOutcome.returns (some "not json")) =
      Except.error (PyError.runtimeError
        ("Invalid JSON from Gemini: " ++ "Expecting value" ++ ": " ++
          snippetOf (strip_code_fences "not json")))
    ∧ snippetOf "not json" = "not json" := by
  exact ⟨C7_parse_error_snippet.1 "not json" "Expecting value" rfl,
         C7_parse_error_snippet.2.1 "not json" (by decide)⟩

/-- **C8.** A missing credential surfaces as HTTP 500 (the re-raised
`ValueError`), while generation, parse, and validation failures all surface as
HTTP 502, so the configuration fault is distinguishable from every other
failure kind. -/
theorem C8_config_error_distinct :
    (∀ m : String, generate_workout_endpoint (GeminiOutcome.missingKey m) =
      EndpointResult.httpError 500 m)
    ∧ generate_workout_endpoint GeminiOutcome.callRaises =
        EndpointResult.httpError 502 "Unexpected Gemini error"
    ∧ (∀ t d : String, jsonLoads (strip_code_fences t) = Except.error d →
        generate_workout_endpoint (GeminiOutcome.returns (some t)) =
          EndpointResult.httpError 502
            ("Invalid JSON from Gemini: " ++ d ++ ": " ++ snippetOf (strip_code_fences t)))
    ∧ (∀ (t : String) (v : JVal), jsonLoads (strip_code_fences t) = Except.ok v →
        validatePlan (jvalToRawPlan v) = Option.none →
        generate_workout_endpoint (GeminiOutcome.returns (some t)) =
          EndpointResult.httpError 502 "Generated workout plan failed validation")
    ∧ (500 : Nat) ≠ 502 := by
  refine ⟨fun m => rfl, rfl, ?_, ?_, by decide⟩
  · intro t d h
    unfold generate_workout_endpoint generate_workout_plan
    simp only [strOrEmpty, h]
  · intro t v h hv
    unfold generate_workout_endpoint generate_workout_plan
    simp only [strOrEmpty, h, hv]

/-- **C8 witness.** The endpoint mapping applied at a concrete missing-key
message, concrete non-JSON text, and the concrete plan `{}` (parses as JSON
but fails plan validation). -/
theorem C8_witness :
    generate_workout_endpoint (GeminiOutcome.missingKey "GEMINI_API_KEY not set") =
      EndpointResult.httpError 500 "GEMINI_API_KEY not set"
    ∧ generate_workout_endpoint (GeminiOutcome.returns (some "not json")) =
        EndpointResult.httpError 502
          ("Invalid JSON from Gemini: " ++ "Expecting value" ++ ": " ++
            snippetOf (strip_code_fences "not json"))
    ∧ generate_workout_endpoint (GeminiOutcome.returns (some "{}")) =
        EndpointResult.httpError 502 "Generated workout plan failed validation" := by
  exact ⟨C8_config_error_distinct.1 "GEMINI_API_KEY not set",
         C8_config_error_distinct.2.2.1 "not json" "Expecting value" rfl,
         C8_config_error_distinct.2.2.2.1 "{}" (JVal.jobj []) rfl (by decide)⟩

/-- Everything in a catalog line after the exercise id. -/
def lineSuffix (ex : ExerciseRec) : String :=
  ", name: " ++ ex.name ++ ", subset: " ++ deriveSubset ex.primary_muscle ++ ", "
    ++ "primary_muscle_id: " ++ ex.primary_muscle_id ++ ", "
    ++ "movement_pattern: " ++ ex.movement_pattern
    ++ ", equipment: " ++ ex.equipment
    ++ (if ex.tags ≠ [] then ", tags: " ++ String.intercalate ", " ex.tags else "")

lemma formatExerciseLine_shape (ex : ExerciseRec) :
    formatExerciseLine ex = "- id: " ++ ex.id ++ lineSuffix ex := by
  unfold formatExerciseLine lineSuffix
  by_cases h : ex.tags = []
  · simp only [h, ne_eq, not_true_eq_false, if_false, String.append_empty,
      String.append_assoc]
  · simp only [ne_eq, h, not_false_eq_true, if_true, String.append_assoc]

/-- **C9.** For a non-empty exercise collection, the Catalog Formatter emits
exactly one line per exercise (the formatted lines of a permutation of the
input), the lines appear in name-sorted order, and every exercise's line
contains its id verbatim (followed by name, subset, primary-muscle id,
movement pattern, equipment and the tag list omitted when empty, which is the
`lineSuffix`). -/
theorem C9_catalog_formatter :
    ∀ exs : List ExerciseRec, exs ≠ [] →
      (catalogLines exs).length = exs.length
      ∧ ((sortByName exs).map (fun e => e.name)).Sorted (· ≤ ·)
      ∧ (sortByName exs).Perm exs
      ∧ (∀ ex ∈ exs, formatExerciseLine ex ∈ catalogLines exs
          ∧ formatExerciseLine ex = "- id: " ++ ex.id ++ lineSuffix ex) := by
  intro exs _
  have hperm : (sortByName exs).Perm exs := List.mergeSort_perm exs _
  refine ⟨?_, ?_, hperm, ?_⟩
  · unfold catalogLines
    rw [List.length_map]
    unfold sortByName
    exact List.length_mergeSort exs
  · have hsorted :
        List.Pairwise (fun a b : ExerciseRec => decide (a.name ≤ b.name) = true)
          (sortByName exs) := by
      unfold sortByName
      exact List.sorted_mergeSort
        (by
          intro a b c hab hbc
          exact decide_eq_true (le_trans (of_decide_eq_true hab) (of_decide_eq_true hbc)))
        (by
          intro a b
          rcases le_total a.name b.name with h | h
          · simp [h]
          · simp [h])
        exs
    exact List.Pairwise.map _ (fun a b hab => of_decide_eq_true hab) hsorted
  · intro ex hex
    refine ⟨?_, formatExerciseLine_shape ex⟩
    unfold catalogLines
    exact List.mem_map_of_mem formatExerciseLine (hperm.mem_iff.mpr hex)

/-- **C9 witness.** The formatter theorem applied to a concrete singleton
catalog. -/
theorem C9_witness :
    (catalogLines [{ id := "ex-1", name := "Bench Press",
                     primary_muscle := some "Chest", primary_muscle_id := "3",
                     movement_pattern := "push", equipment := "barbell",
                     tags := [] }]).length = 1
    ∧ formatExerciseLine { id := "ex-1", name := "Bench Press",
                           primary_muscle := some "Chest", primary_muscle_id := "3",
                           movement_pattern := "push", equipment := "barbell",
                           tags := [] } =
        "- id: " ++ "ex-1" ++ lineSuffix { id := "ex-1", name := "Bench Press",
                                           primary_muscle := some "Chest",
                                           primary_muscle_id := "3",
                                           movement_pattern := "push",
                                           equipment := "barbell", tags := [] } := by
  have h := C9_catalog_formatter
    [({ id := "ex-1", name := "Bench Press", primary_muscle := some "Chest",
        primary_muscle_id := "3", movement_pattern := "push",
        equipment := "barbell", tags := [] } : ExerciseRec)] (by simp)
  exact ⟨h.1, (h.2.2.2 _ (by simp)).2⟩

lemma validateSet_some_elim {d : RawSet} {s : SetPrescription}
    (h : validateSet d = some s) :
    fieldOptInt (normalize_set d).reps = some s.reps
    ∧ fieldOptInt (normalize_set d).seconds = some s.seconds
    ∧ s.weight = (normalize_set d).weight
    ∧ s.notes = (normalize_set d).notes
    ∧ s.reps_text = (normalize_set d).reps_text
    ∧ (s.reps.isNone && s.seconds.isNone && !(truthyStr s.reps_text)) = false := by
  unfold validateSet at h
  cases hr : fieldOptInt (normalize_set d).reps with
  | none => simp [hr] at h
  | some r =>
    cases hsv : fieldOptInt (normalize_set d).seconds with
    | none => simp [hr, hsv] at h
    | some sv =>
      simp only [hr, hsv] at h
      unfold validate_reps_or_seconds at h
      split at h
      · exact absurd h (by simp)
      · rename_i hc
        injection h with h2
        subst h2
        refine ⟨rfl, rfl, rfl, rfl, rfl, ?_⟩
        simpa using hc

/-- `fieldOptInt` yields `some none` only for an absent value. -/
lemma fieldOptInt_eq_some_none {x : Option PyInt}
    (h : fieldOptInt x = some Option.none) : x = Option.none := by
  cases x with
  | none => rfl
  | some v =>
    cases v with
    | int n => simp [fieldOptInt] at h
    | bool b => simp [fieldOptInt] at h

lemma normalize_set_notes (d : RawSet) : (normalize_set d).notes = d.notes := by
  cases hA : extract_first_int d.reps with
  | some a => simp [normalize_set, hA]
  | none =>
    cases hB : extract_first_int d.seconds with
    | some b => simp [normalize_set, hA, hB]
    | none =>
      cases hC : extract_first_int (Raw.str (strOrEmpty d.notes)) with
      | none => simp [normalize_set, hA, hB, hC]
      | some k =>
        simp only [normalize_set, hA, hB, hC, Option.isNone_none, Bool.and_self,
          if_true]
        split <;> rfl

/-- A set that normalizes to no numeric reps and no numeric seconds had
digit-free notes: otherwise the inference step would have filled one in. -/
lemma normalize_set_nodigit (d : RawSet)
    (hr : (normalize_set d).reps = Option.none)
    (hs : (normalize_set d).seconds = Option.none) :
    extract_first_int (Raw.str (strOrEmpty d.notes)) = Option.none := by
  cases hA : extract_first_int d.reps with
  | some a => simp [normalize_set, hA] at hr
  | none =>
    cases hB : extract_first_int d.seconds with
    | some b => simp [normalize_set, hA, hB] at hs
    | none =>
      cases hC : extract_first_int (Raw.str (strOrEmpty d.notes)) with
      | none => rfl
      | some k =>
        have hrs := And.intro hr hs
        simp only [normalize_set, hA, hB, hC, Option.isNone_none, Bool.and_self,
          if_true] at hrs
        split at hrs
        · exact absurd hrs.2 (by simp)
        · exact absurd hrs.1 (by simp)

/-- Re-validating the serialized form of a set reproduces it, provided that if
it has neither numeric reps nor seconds, its notes contain no prescription
keyword (otherwise `normalize_set` overwrites `reps_text` with the notes). -/
lemma revalidateSet (s : SetPrescription)
    (hinv : (s.reps.isNone && s.seconds.isNone && !(truthyStr s.reps_text)) = false)
    (hnod : s.reps = Option.none → s.seconds = Option.none →
      extract_first_int (Raw.str (strOrEmpty s.notes)) = Option.none)
    (hkw : s.reps = Option.none → s.seconds = Option.none →
      (keywords.any (fun k => pyIn k (pyLower (strOrEmpty s.notes)))) = false) :
    validateSet (serializeSet s) = some s := by
  obtain ⟨r, sec, w, n, rt⟩ := s
  cases r with
  | some a =>
    cases sec with
    | some b =>
      simp [validateSet, serializeSet, optIntToRaw, normalize_set,
        extract_first_int, fieldOptInt, validate_reps_or_seconds]
    | none =>
      simp [validateSet, serializeSet, optIntToRaw, normalize_set,
        extract_first_int, fieldOptInt, validate_reps_or_seconds]
  | none =>
    cases sec with
    | some b =>
      simp [validateSet, serializeSet, optIntToRaw, normalize_set,
        extract_first_int, fieldOptInt, validate_reps_or_seconds]
    | none =>
      have hno := hnod rfl rfl
      have hk := hkw rfl rfl
      have ht : truthyStr rt = true := by simpa using hinv
      have hno2 : (firstDigitRun (pyLower (pyStrip (strOrEmpty n))).data).map
          (fun ds => PyInt.int (digitsVal ds)) = Option.none := by
        simpa [extract_first_int] using hno
      simp [validateSet, serializeSet, optIntToRaw, normalize_set,
        extract_first_int, hno2, fieldOptInt, validate_reps_or_seconds,
        notesFallback, hk, ht]

lemma mapOpt_some_mem {α β : Type} {f : α → Option β} :
    ∀ {l : List α} {r : List β}, mapOpt f l = some r →
      ∀ y ∈ r, ∃ x ∈ l, f x = some y := by
  intro l
  induction l with
  | nil =>
    intro r h y hy
    simp [mapOpt] at h
    subst h
    cases hy
  | cons a t ih =>
    intro r h y hy
    cases hfa : f a with
    | none => simp [mapOpt, hfa] at h
    | some b =>
      cases hmt : mapOpt f t with
      | none => simp [mapOpt, hfa, hmt] at h
      | some lt =>
        simp [mapOpt, hfa, hmt] at h
        subst h
        rcases List.mem_cons.mp hy with hyb | hyl
        · exact ⟨a, List.mem_cons_self a t, hyb ▸ hfa⟩
        · obtain ⟨x, hx, hfx⟩ := ih hmt y hyl
          exact ⟨x, List.mem_cons_of_mem a hx, hfx⟩

lemma validateBlockExercise_sets {rbe : RawBlockExercise} {be : BlockExercise}
    (h : validateBlockExercise rbe = some be) :
    ∀ s ∈ be.sets, ∃ d, validateSet d = some s := by
  intro s hs
  unfold validateBlockExercise at h
  cases heid : rbe.exercise_id with
  | none => rw [heid] at h; exact absurd h (by simp)
  | some eid =>
    cases hsets : rbe.sets with
    | none => rw [heid, hsets] at h; exact absurd h (by simp)
    | some rsl =>
      cases hmo : mapOpt validateSet rsl with
      | none => rw [heid, hsets] at h; simp [hmo] at h
      | some sl =>
        rw [heid, hsets] at h
        simp [hmo] at h
        obtain ⟨d, _, hd⟩ := mapOpt_some_mem hmo s (by rw [← h] at hs; exact hs)
        exact ⟨d, hd⟩

lemma validateBlock_exercises {rb : RawBlock} {b : WorkoutBlock}
    (h : validateBlock rb = some b) :
    ∀ be ∈ b.exercises, ∃ rbe, validateBlockExercise rbe = some be := by
  intro be hbe
  unfold validateBlock at h
  cases hbt : rb.block_type with
  | none => rw [hbt] at h; exact absurd h (by simp)
  | some bts =>
    cases hbtv : BlockType.ofString bts with
    | none => rw [hbt] at h; simp [hbtv] at h
    | some bt =>
      cases hrs : rb.rest_seconds with
      | none => rw [hbt] at h; simp [hbtv, hrs] at h
      | some rs =>
        cases hexl : rb.exercises with
        | none => rw [hbt] at h; simp [hbtv, hrs, hexl] at h
        | some rexl =>
          cases hmo : mapOpt validateBlockExercise rexl with
          | none => rw [hbt] at h; simp [hbtv, hrs, hexl, hmo] at h
          | some exl =>
            rw [hbt] at h
            simp [hbtv, hrs, hexl, hmo] at h
            obtain ⟨rbe, _, hrbe⟩ := mapOpt_some_mem hmo be
              (by rw [← h] at hbe; exact hbe)
            exact ⟨rbe, hrbe⟩

lemma validatePlan_sets {rp : RawPlan} {p : AIWorkoutPlan}
    (h : validatePlan rp = some p) :
    ∀ b ∈ p.blocks, ∀ be ∈ b.exercises, ∀ s ∈ be.sets,
      ∃ d, validateSet d = some s := by
  intro b hb be hbe s hs
  unfold validatePlan at h
  cases hn : rp.name with
  | none => rw [hn] at h; exact absurd h (by simp)
  | some nm =>
    cases hfs : rp.focus_subsets with
    | none => rw [hn, hfs] at h; exact absurd h (by simp)
    | some fss =>
      cases hfsv : mapOpt SubsetType.ofString fss with
      | none => rw [hn, hfs] at h; simp [hfsv] at h
      | some fs =>
        cases hms : rp.muscles_targeted with
        | none => rw [hn, hfs] at h; simp [hfsv, hms] at h
        | some ms =>
          cases hbs : rp.blocks with
          | none => rw [hn, hfs] at h; simp [hfsv, hms, hbs] at h
          | some rbs =>
            cases hmo : mapOpt validateBlock rbs with
            | none => rw [hn, hfs] at h; simp [hfsv, hms, hbs, hmo] at h
            | some bls =>
              rw [hn, hfs] at h
              simp [hfsv, hms, hbs, hmo] at h
              obtain ⟨rb, _, hrb⟩ := mapOpt_some_mem hmo b
                (by rw [← h] at hb; exact hb)
              obtain ⟨rbe, hrbe⟩ := validateBlock_exercises hrb be hbe
              exact validateBlockExercise_sets hrbe s hs

lemma BlockType_roundtrip (bt : BlockType) : BlockType.ofString bt.toStr = some bt := by
  cases bt <;> rfl

lemma SubsetType_roundtrip (st : SubsetType) :
    SubsetType.ofString st.toStr = some st := by
  cases st <;> rfl

lemma revalidate_blockExercise (be : BlockExercise)
    (h : ∀ s ∈ be.sets, validateSet (serializeSet s) = some s) :
    validateBlockExercise (serializeBlockExercise be) = some be := by
  simp [validateBlockExercise, serializeBlockExercise, mapOpt_map_eq_some h]

lemma revalidate_block (b : WorkoutBlock)
    (h : ∀ be ∈ b.exercises,
      validateBlockExercise (serializeBlockExercise be) = some be) :
    validateBlock (serializeBlock b) = some b := by
  simp [validateBlock, serializeBlock, BlockType_roundtrip, mapOpt_map_eq_some h]

/-- The keyword-freedom condition under which round-tripping is the identity:
no set lacking numeric reps/seconds has notes containing a prescription
keyword (such notes would overwrite `reps_text` on re-validation). -/
def noNotesKeywordOverride (p : AIWorkoutPlan) : Prop :=
  ∀ b ∈ p.blocks, ∀ be ∈ b.exercises, ∀ s ∈ be.sets,
    s.reps = Option.none → s.seconds = Option.none →
    (keywords.any (fun k => pyIn k (pyLower (strOrEmpty s.notes)))) = false

/-- The raw plan of the round-trip counterexample: one set with textual reps
`"AMRAP"` and keyword-bearing notes. -/
def C2rawPlan : RawPlan :=
  { name := some "w", focus_subsets := some ["upper"], muscles_targeted := some [],
    blocks := some [{ block_type := some "straight", rest_seconds := some 60,
                      exercises := some [{ exercise_id := some "e1",
                                           sets := some [{ reps := Raw.str "AMRAP",
                                                           notes := some "work until failure" }] }] }] }

/-- The plan the Plan Validator produces from `C2rawPlan`. -/
def C2planA : AIWorkoutPlan :=
  { name := "w", focus_subsets := [SubsetType.upper], muscles_targeted := [],
    blocks := [{ block_type := BlockType.straight, rest_seconds := 60,
                 exercises := [{ exercise_id := "e1",
                                 sets := [{ reps := Option.none,
                                            seconds := Option.none,
                                            weight := Option.none,
                                            notes := some "work until failure",
                                            reps_text := some "AMRAP" }] }] }] }

/-- **C2 counterexample.** A validated plan whose serialized JSON re-validates
to a *different* plan: on the second pass the original string reps is gone
(`reps` is null), so the keyword heuristic overwrites `reps_text` with the
notes text `"work until failure"`. -/
theorem C2_counterexample :
    validatePlan C2rawPlan = some C2planA
    ∧ validatePlan (serializePlan C2planA) ≠ some C2planA := by
  exact ⟨by decide, by decide⟩

/-- **C2 (amended).** Re-validating the serialized plan yields the original
plan provided no set lacking numeric reps/seconds has prescription-keyword
notes; without that condition `reps_text` can be overwritten by the notes
text, as the counterexample shows. -/
theorem C2_roundtrip_amended :
    ∀ (rp : RawPlan) (p : AIWorkoutPlan),
      validatePlan rp = some p → noNotesKeywordOverride p →
      validatePlan (serializePlan p) = some p := by
  intro rp p hval hkw
  have hsets := validatePlan_sets hval
  have hbl : mapOpt validateBlock (p.blocks.map serializeBlock) = some p.blocks := by
    apply mapOpt_map_eq_some
    intro b hb
    apply revalidate_block
    intro be hbe
    apply revalidate_blockExercise
    intro s hs
    obtain ⟨d, hd⟩ := hsets b hb be hbe s hs
    obtain ⟨hre, hse, hw, hnt, hrt, hinv⟩ := validateSet_some_elim hd
    have hnotes : s.notes = d.notes := by rw [hnt]; exact normalize_set_notes d
    apply revalidateSet s hinv
    · intro hr hsec
      rw [hnotes]
      apply normalize_set_nodigit d
      · rw [hr] at hre
        exact fieldOptInt_eq_some_none hre
      · rw [hsec] at hse
        exact fieldOptInt_eq_some_none hse
    · intro hr hsec
      exact hkw b hb be hbe s hs hr hsec
  have hfs : mapOpt SubsetType.ofString (p.focus_subsets.map SubsetType.toStr) =
      some p.focus_subsets :=
    mapOpt_map_eq_some (fun st _ => SubsetType_roundtrip st)
  simp [validatePlan, serializePlan, hfs, hbl]

/-- The raw plan used by the round-trip witness. -/
def C2rawB : RawPlan :=
  { name := some "w2", focus_subsets := some ["lower"],
    muscles_targeted := some ["Quads"],
    blocks := some [{ block_type := some "superset", rest_seconds := some 90,
                      exercises := some [{ exercise_id := some "e2",
                                           sets := some [{ reps := Raw.int 10,
                                                           weight := some 100,
                                                           notes := some "slow tempo" }] }] }] }

/-- The validated plan of the round-trip witness. -/
def C2planB : AIWorkoutPlan :=
  { name := "w2", focus_subsets := [SubsetType.lower], muscles_targeted := ["Quads"],
    blocks := [{ block_type := BlockType.superset, rest_seconds := 90,
                 exercises := [{ exercise_id := "e2",
                                 sets := [{ reps := some 10, seconds := Option.none,
                                            weight := some 100,
                                            notes := some "slow tempo",
                                            reps_text := Option.none }] }] }] }

/-- **C2 witness.** The amended round-trip theorem applied to a concrete plan
with a numeric set (keyword condition holds vacuously). -/
theorem C2_witness :
    noNotesKeywordOverride C2planB
    ∧ validatePlan (serializePlan C2planB) = some C2planB := by
  have hkw : noNotesKeywordOverride C2planB := by
    unfold noNotesKeywordOverride
    decide
  exact ⟨hkw, C2_roundtrip_amended C2rawB C2planB (by decide) hkw⟩
